import Mathlib

/-!
Verification of the barcode-generator web application (src/app/page.tsx).

The source file contains two variants of the page component, separated by a
document separator after the first component's closing brace (line 595):
the first variant occupies lines 1-595, the second lines 596-1083.  The two
variants share the data model and differ only in small details of
`validateBarcode` and presentation code.  Definitions below are a shallow
embedding of the first (primary) variant; the second variant's
`validateBarcode` is embedded separately as `validateBarcode2` for the
equivalence comparison.

Numeric render/export parameters (JS numbers) are modelled as rationals;
machine strings are Lean strings (all characters involved in the validation
predicates are ASCII, where JS UTF-16 length and Lean codepoint length
coincide on the strings the predicates can accept).
-/

namespace BarcodeGen

/-- One entry of `BARCODE_FORMATS` (page.tsx lines 27-33): a supported
symbology with its identifier, display label and acceptance predicate. -/
structure SymbologyRule where
  value : String
  label : String
  validation : String → Bool

/-- JS regex character class `\d`: the ASCII digits. -/
def jsIsDigit (c : Char) : Bool :=
  '0' ≤ c && c ≤ '9'

/-- The character class of the Code 39 regex on line 29:
digits, uppercase letters, hyphen, dot, space, dollar, slash, plus, percent. -/
def code39Char (c : Char) : Bool :=
  jsIsDigit c || ('A' ≤ c && c ≤ 'Z') || c == '-' || c == '.' || c == ' '
    || c == '$' || c == '/' || c == '+' || c == '%'

/-- JS regex test for a string of exactly `n` decimal digits
(the EAN-13 / EAN-8 / UPC-A regexes on lines 30-32). -/
def digitsExactly (n : Nat) (t : String) : Bool :=
  t.data.length == n && t.data.all jsIsDigit

/-- JS regex test for one or more Code 39 characters (line 29). -/
def code39Test (t : String) : Bool :=
  !t.data.isEmpty && t.data.all code39Char

/-- `BARCODE_FORMATS` (page.tsx lines 27-33); identical in both variants
(lines 621-627 for the second). -/
def BARCODE_FORMATS : List SymbologyRule :=
  [ ⟨"CODE128", "Code 128", fun _ => true⟩,
    ⟨"CODE39", "Code 39", code39Test⟩,
    ⟨"EAN13", "EAN-13", digitsExactly 13⟩,
    ⟨"EAN8", "EAN-8", digitsExactly 8⟩,
    ⟨"UPC", "UPC-A", digitsExactly 12⟩ ]

/-- `validateBarcode` of the first variant (lines 63-68): an empty string is
rejected up front, an unknown format identifier is rejected, otherwise the
format's predicate decides. -/
def validateBarcode (text format : String) : Bool :=
  if text = "" then false
  else
    match BARCODE_FORMATS.find? (fun f => f.value == format) with
    | none => false
    | some f => f.validation text

/-- `validateBarcode` of the second variant (lines 657-661): identical
except that it has no empty-string guard. -/
def validateBarcode2 (text format : String) : Bool :=
  match BARCODE_FORMATS.find? (fun f => f.value == format) with
  | none => false
  | some f => f.validation text

/-- The export output format (`ExportSettings.format`, line 21). -/
inductive ExportFormat where
  | png
  | svg
  | jpg
deriving DecidableEq

/-- The literal string of an `ExportFormat`, as interpolated into filenames
and MIME types in the source. -/
def ExportFormat.ext : ExportFormat → String
  | .png => "png"
  | .svg => "svg"
  | .jpg => "jpg"

/-- `ExportSettings` (lines 20-25).  The source fields named after the Lean
keywords are renamed `prefixStr` and `suffixStr`. -/
structure ExportSettings where
  format : ExportFormat
  resolution : ℚ
  prefixStr : String
  suffixStr : String

/-- `BarcodeSettings` (lines 8-18): render parameters chosen by the user.
`text` is an optional override for the human-readable label. -/
structure BarcodeSettings where
  format : String
  width : ℚ
  height : ℚ
  displayValue : Bool
  text : Option String
  font : String
  fontSize : ℚ
  backgroundColor : String
  lineColor : String

/-- The options record passed to the external renderer (JsBarcode) at each
invocation site. -/
structure RenderOptions where
  format : String
  width : ℚ
  height : ℚ
  displayValue : Bool
  text : String
  font : String
  fontSize : ℚ
  background : String
  lineColor : String

/-- One parsed batch item (`batchData` element, line 55).  The TS type marks
`text` optional but both parsing paths always populate it, so it is a plain
string here. -/
structure BatchRow where
  barcode : String
  text : String
deriving DecidableEq

/-- JS `a || b` for an optional string `a`: `undefined` and the empty string
are falsy, so they fall through to the default. -/
def jsOrD (a : Option String) (d : String) : String :=
  match a with
  | none => d
  | some s => if s = "" then d else s

/-- Observable per-row outcome of the batch loop (lines 200-254): a warning
for a row that fails validation, or a render-and-export attempt, which either
exports a file under a computed name or is caught as a rendering error. -/
inductive BatchEvent where
  | warn (barcode : String)
  | exported (barcode filename : String)
  | renderError (barcode : String)
deriving DecidableEq

/-- The filename used for a batch export: the SVG branch (line 225) appends
the literal ".svg", the raster branch (line 242) appends the export format. -/
def batchFilename (es : ExportSettings) (code : String) : String :=
  if es.format = ExportFormat.svg then
    es.prefixStr ++ code ++ es.suffixStr ++ ".svg"
  else
    es.prefixStr ++ code ++ es.suffixStr ++ "." ++ es.format.ext

/-- The options the batch loop passes to the renderer for one row: the SVG
branch (lines 211-221) passes the configured values unchanged; the raster
branch (lines 228-238) multiplies width, height and font size by
`resolution / 500` (lines 196-198). -/
def batchRenderOptions (bs : BarcodeSettings) (es : ExportSettings)
    (item : BatchRow) : RenderOptions :=
  if es.format = ExportFormat.svg then
    { format := bs.format, width := bs.width, height := bs.height,
      displayValue := bs.displayValue, text := item.text, font := bs.font,
      fontSize := bs.fontSize, background := bs.backgroundColor,
      lineColor := bs.lineColor }
  else
    let scale := es.resolution / 500
    { format := bs.format, width := bs.width * scale,
      height := bs.height * scale, displayValue := bs.displayValue,
      text := item.text, font := bs.font, fontSize := bs.fontSize * scale,
      background := bs.backgroundColor, lineColor := bs.lineColor }

/-- One iteration of the batch loop (lines 200-254), parameterised by an
oracle `renderOk` telling whether the external renderer succeeds on the row:
an invalid row is warned about and skipped (lines 203-206); a valid row is
attempted, and a renderer exception is caught and logged (lines 251-253)
without aborting the batch. -/
def processRow (bs : BarcodeSettings) (es : ExportSettings)
    (renderOk : BatchRow → Bool) (item : BatchRow) : BatchEvent :=
  if validateBarcode item.barcode bs.format then
    if renderOk item then
      BatchEvent.exported item.barcode (batchFilename es item.barcode)
    else
      BatchEvent.renderError item.barcode
  else
    BatchEvent.warn item.barcode

/-- The UI state relevant to the claims (a fragment of the component state,
lines 36-57). -/
structure AppState where
  inputText : String
  barcodeSettings : BarcodeSettings
  exportSettings : ExportSettings
  batchData : List BatchRow
  validationError : String
  isGenerating : Bool

/-- `generateBatch` (lines 187-257): with no rows it returns immediately;
otherwise it sets `isGenerating`, walks the rows in order producing one
`BatchEvent` each, and clears `isGenerating` after the last row.  The
acquisition of the 2D canvas context is assumed to succeed (a fresh
in-memory canvas always yields one in a browser). -/
def generateBatch (renderOk : BatchRow → Bool) (st : AppState) :
    AppState × List BatchEvent :=
  if st.batchData.isEmpty then (st, [])
  else
    ({ st with isGenerating := false },
      st.batchData.map (processRow st.barcodeSettings st.exportSettings renderOk))

/-- The values `setIsGenerating` is called with during one `generateBatch`
run: none when the empty-row guard returns (line 188), otherwise `true` at
entry (line 190) and `false` after the loop (line 256). -/
def isGeneratingWrites (st : AppState) : List Bool :=
  if st.batchData.isEmpty then [] else [true, false]

/-- Pressing the batch generate button: the button is disabled while a batch
is running or no rows are loaded (line 570), so the click is rejected then;
otherwise it invokes `generateBatch`. -/
def clickGenerate (renderOk : BatchRow → Bool) (st : AppState) :
    AppState × List BatchEvent :=
  if st.isGenerating || st.batchData.isEmpty then (st, [])
  else generateBatch renderOk st

/-- The options the live-preview effect (lines 86-96) passes to the renderer:
the configured values unchanged, with the label defaulting to the input text. -/
def previewRenderOptions (bs : BarcodeSettings) (inputText : String) :
    RenderOptions :=
  { format := bs.format, width := bs.width, height := bs.height,
    displayValue := bs.displayValue, text := jsOrD bs.text inputText,
    font := bs.font, fontSize := bs.fontSize, background := bs.backgroundColor,
    lineColor := bs.lineColor }

/-- The options `downloadSingle` passes to the renderer on the hidden canvas
(lines 118-128): width, height and font size multiplied by
`resolution / 500` (line 113). -/
def downloadCanvasRenderOptions (bs : BarcodeSettings) (es : ExportSettings)
    (inputText : String) : RenderOptions :=
  let scale := es.resolution / 500
  { format := bs.format, width := bs.width * scale, height := bs.height * scale,
    displayValue := bs.displayValue, text := jsOrD bs.text inputText,
    font := bs.font, fontSize := bs.fontSize * scale,
    background := bs.backgroundColor, lineColor := bs.lineColor }

/-- The renderer invocation whose output `downloadSingle` exports: for SVG
output the exported blob is the serialisation of the live preview (lines
131-138), which the preview effect rendered with unscaled settings; for
raster output it is the hidden canvas rendered with scaled settings
(lines 118-128, 139-146). -/
def singleExportRenderOptions (st : AppState) : RenderOptions :=
  if st.exportSettings.format = ExportFormat.svg then
    previewRenderOptions st.barcodeSettings st.inputText
  else
    downloadCanvasRenderOptions st.barcodeSettings st.exportSettings st.inputText

/-- The filename `downloadSingle` saves under: the SVG branch (line 136)
appends the literal ".svg", the raster branch (line 142) appends the export
format. -/
def singleFilename (st : AppState) : String :=
  if st.exportSettings.format = ExportFormat.svg then
    st.exportSettings.prefixStr ++ st.inputText ++ st.exportSettings.suffixStr ++ ".svg"
  else
    st.exportSettings.prefixStr ++ st.inputText ++ st.exportSettings.suffixStr
      ++ "." ++ st.exportSettings.format.ext

/-- `downloadSingle` (lines 103-147): a no-op when the input is empty or a
validation error is displayed (line 104); otherwise it exports one artifact,
returned here as its filename together with the options of the renderer
invocation that produced it. -/
def downloadSingle (st : AppState) : Option (String × RenderOptions) :=
  if st.inputText = "" || st.validationError ≠ "" then none
  else some (singleFilename st, singleExportRenderOptions st)

/-- A parsed CSV record as the external tabular parser delivers it: the
header field names paired with this row's values, in column order
(`Object.values(row)[0]` is therefore the first column's value). -/
def CsvRecord : Type := List (String × String)

/-- Field access `row.k` on a parsed record: the value under the exactly
matching header name, or `undefined` (`none`) when the header is absent. -/
def getField (row : CsvRecord) (k : String) : Option String :=
  (List.find? (fun p => p.1 == k) row).map (fun p => p.2)

/-- `Object.values(row)[0]`: the first column's value, `undefined` on an
empty record. -/
def firstColumn (row : CsvRecord) : Option String :=
  (List.head? row).map (fun p => p.2)

/-- A JS `x1 || x2 || ... || xn || last` chain over string-valued field
accesses: the first truthy (present and non-empty) value wins, otherwise the
final fallback's value; a final `undefined` is modelled as the empty string. -/
def jsOrChain (xs : List (Option String)) (last : Option String) : String :=
  match xs with
  | [] => last.getD ""
  | x :: rest =>
    match x with
    | some s => if s = "" then jsOrChain rest last else s
    | none => jsOrChain rest last

/-- The code of one CSV row (line 166):
`row.barcode || row.Barcode || Object.values(row)[0]`. -/
def csvRowBarcode (row : CsvRecord) : String :=
  jsOrChain [getField row "barcode", getField row "Barcode"] (firstColumn row)

/-- The label of one CSV row (line 167):
`row.text || row.Text || row.barcode || row.Barcode || Object.values(row)[0]`. -/
def csvRowText (row : CsvRecord) : String :=
  jsOrChain
    [getField row "text", getField row "Text",
      getField row "barcode", getField row "Barcode"]
    (firstColumn row)

/-- The mapping `handleBatchUpload` applies to the parsed CSV records
(lines 165-168) to build `batchData`. -/
def csvRowsToBatch (rows : List CsvRecord) : List BatchRow :=
  rows.map (fun row => ⟨csvRowBarcode row, csvRowText row⟩)

/-- Splitting a character list at a separator (used to model the external
CSV tokenizer on simple unquoted input). -/
def splitOnChar (sep : Char) : List Char → List (List Char)
  | [] => [[]]
  | c :: rest =>
    match splitOnChar sep rest with
    | [] => if c = sep then [[], []] else [[c]]
    | g :: gs => if c = sep then [] :: g :: gs else (c :: g) :: gs

/-- A line consisting only of whitespace, skipped by the parser's
skip-empty-lines option. -/
def isBlankLine (cs : List Char) : Bool :=
  cs.all (fun c => c == ' ' || c == '\t' || c == '\r')

/-- Modelled from the spec: the external tabular parser (spec section 6,
invoked with a header row and skip-empty-lines on, page.tsx lines 161-163)
on simple unquoted comma-separated input — the first line gives the field
names, every later non-blank line yields one record pairing those names
with the line's comma-separated values in order. -/
def papaParseHeader (text : String) : List CsvRecord :=
  match splitOnChar '\n' text.data with
  | [] => []
  | header :: rest =>
    let keys := (splitOnChar ',' header).map List.asString
    (rest.filter (fun l => !isBlankLine l)).map
      (fun l => keys.zip ((splitOnChar ',' l).map List.asString))

/-- The CSV branch of `handleBatchUpload` (lines 160-171) end to end:
external parse, then the row mapping. -/
def handleCsvUpload (text : String) : List BatchRow :=
  csvRowsToBatch (papaParseHeader text)

/-- ASCII lower-casing of one character. -/
def charLower (c : Char) : Char :=
  if 'A' ≤ c && c ≤ 'Z' then Char.ofNat (c.toNat + 32) else c

/-- ASCII case-insensitive string equality. -/
def strEqCI (a b : String) : Bool :=
  a.data.map charLower == b.data.map charLower

/-- Modelled from the spec: a case-insensitive field lookup, the behaviour
the spec ascribes to the code/label column selection ("a case-insensitive
field named barcode").  Used only to compare the claim's wording against
`csvRowBarcode`. -/
def lookupCI (row : CsvRecord) (k : String) : Option String :=
  (List.find? (fun p => strEqCI p.1 k) row).map (fun p => p.2)

/-- The code of the row a `BatchEvent` reports a render-and-export attempt
for: the rows the loop body reached past the validation guard.  A warned
(skipped) row is not an attempt. -/
def attemptOf : BatchEvent → Option String
  | BatchEvent.warn _ => none
  | BatchEvent.exported c _ => some c
  | BatchEvent.renderError c => some c

/-- The row codes attempted during a batch run, in emission order. -/
def attemptCodes (events : List BatchEvent) : List String :=
  events.filterMap attemptOf

/-- The code of the row a `BatchEvent` logs a skip warning for. -/
def warnOf : BatchEvent → Option String
  | BatchEvent.warn c => some c
  | BatchEvent.exported _ _ => none
  | BatchEvent.renderError _ => none

/-- The row codes warned about (skipped) during a batch run, in order. -/
def warnCodes (events : List BatchEvent) : List String :=
  events.filterMap warnOf

/-! Concrete fixtures used to witness the theorems below. -/

/-- A renderer oracle that always succeeds. -/
def rokTrue : BatchRow → Bool := fun _ => true

/-- The component's initial `barcodeSettings` (lines 38-47). -/
def bsInit : BarcodeSettings :=
  { format := "CODE128", width := 2, height := 100, displayValue := true,
    text := none, font := "monospace", fontSize := 20,
    backgroundColor := "#ffffff", lineColor := "#000000" }

/-- The initial settings with the EAN-13 symbology selected. -/
def bsEan13 : BarcodeSettings := { bsInit with format := "EAN13" }

/-- Export settings: SVG output with filename decoration. -/
def esSvgEx : ExportSettings :=
  { format := ExportFormat.svg, resolution := 500,
    prefixStr := "IT_", suffixStr := "_v1" }

/-- Export settings: PNG output at resolution 800. -/
def esPngEx : ExportSettings :=
  { format := ExportFormat.png, resolution := 800,
    prefixStr := "", suffixStr := "" }

/-- An idle state holding one valid batch row, SVG export. -/
def stSvgEx : AppState :=
  { inputText := "", barcodeSettings := bsInit, exportSettings := esSvgEx,
    batchData := [⟨"ABCD1234", "ABCD1234"⟩],
    validationError := "", isGenerating := false }

/-- An idle state holding one valid and one invalid EAN-13 row. -/
def stEanEx : AppState :=
  { inputText := "", barcodeSettings := bsEan13, exportSettings := esPngEx,
    batchData := [⟨"1234567890123", "A"⟩, ⟨"abc", "B"⟩],
    validationError := "", isGenerating := false }

/-- A state in which a batch run is in progress. -/
def stRunningEx : AppState := { stEanEx with isGenerating := true }

/-- A single-mode state with valid input and SVG export selected. -/
def stSingleEx : AppState := { stSvgEx with inputText := "ABCD1234" }

/-- JS truthiness of an optional string: `undefined` and `""` are falsy. -/
def jsTruthy : Option String → Bool
  | none => false
  | some s => !(s == "")

/-- A parsed record whose barcode column is headed `BARCODE`, with a
different first column. -/
def rowUpperEx : CsvRecord := [("label", "X"), ("BARCODE", "123")]

/-- A parsed record from the header `barcode,text`. -/
def rowPlainEx : CsvRecord := [("barcode", "123456789012"), ("text", "Prodotto A")]

/-! Helper lemmas about the validator. -/

lemma validate_reduce (s v : String) :
    validateBarcode s v = if s = "" then false else validateBarcode2 s v := rfl

lemma digitsExactly_iff (n : Nat) (s : String) :
    digitsExactly n s = true
      ↔ s.data.length = n ∧ ∀ c ∈ s.data, '0' ≤ c ∧ c ≤ '9' := by
  simp [digitsExactly, List.all_eq_true, jsIsDigit, Bool.and_eq_true,
    decide_eq_true_eq]

lemma code39Char_iff (c : Char) :
    code39Char c = true
      ↔ ('0' ≤ c ∧ c ≤ '9') ∨ ('A' ≤ c ∧ c ≤ 'Z') ∨ c = '-' ∨ c = '.'
          ∨ c = ' ' ∨ c = '$' ∨ c = '/' ∨ c = '+' ∨ c = '%' := by
  simp [code39Char, jsIsDigit, Bool.or_eq_true, Bool.and_eq_true,
    decide_eq_true_eq, beq_iff_eq, or_assoc]

lemma find_format_none (f : String)
    (h : f ∉ ["CODE128", "CODE39", "EAN13", "EAN8", "UPC"]) :
    BARCODE_FORMATS.find? (fun r => r.value == f) = none := by
  rw [List.find?_eq_none]
  intro r hr
  simp only [List.mem_cons, List.not_mem_nil, or_false, not_or] at h
  obtain ⟨h1, h2, h3, h4, h5⟩ := h
  simp only [BARCODE_FORMATS, List.mem_cons, List.not_mem_nil, or_false] at hr
  rcases hr with rfl | rfl | rfl | rfl | rfl <;>
    simp only [beq_iff_eq] <;>
    intro e <;>
    first
      | exact h1 e.symm
      | exact h2 e.symm
      | exact h3 e.symm
      | exact h4 e.symm
      | exact h5 e.symm

/-- C2: EAN-13 admits exactly the 13-digit strings, EAN-8 exactly the
8-digit strings, and UPC-A exactly the 12-digit strings. -/
theorem ean_upc_digit_gate (s : String) :
    (validateBarcode s "EAN13" = true
        ↔ s.data.length = 13 ∧ ∀ c ∈ s.data, '0' ≤ c ∧ c ≤ '9')
      ∧ (validateBarcode s "EAN8" = true
          ↔ s.data.length = 8 ∧ ∀ c ∈ s.data, '0' ≤ c ∧ c ≤ '9')
      ∧ (validateBarcode s "UPC" = true
          ↔ s.data.length = 12 ∧ ∀ c ∈ s.data, '0' ≤ c ∧ c ≤ '9') := by
  by_cases hs : s = ""
  · subst hs
    exact ⟨by decide, by decide, by decide⟩
  · refine ⟨?_, ?_, ?_⟩ <;> rw [validate_reduce, if_neg hs]
    · exact digitsExactly_iff 13 s
    · exact digitsExactly_iff 8 s
    · exact digitsExactly_iff 12 s

/-- Witness for `ean_upc_digit_gate`: the three example codes of the claim
pass their respective symbologies. -/
theorem ean_upc_digit_gate_witness :
    validateBarcode "1234567890123" "EAN13" = true
      ∧ validateBarcode "12345678" "EAN8" = true
      ∧ validateBarcode "123456789012" "UPC" = true :=
  ⟨(ean_upc_digit_gate "1234567890123").1.mpr (by decide),
    (ean_upc_digit_gate "12345678").2.1.mpr (by decide),
    (ean_upc_digit_gate "123456789012").2.2.mpr (by decide)⟩

/-- C3: validation rejects every unsupported format identifier and the
empty string under every format. -/
theorem validate_unknown_or_empty (s f : String)
    (h : f ∉ ["CODE128", "CODE39", "EAN13", "EAN8", "UPC"] ∨ s = "") :
    validateBarcode s f = false := by
  rcases h with hf | hs
  · have h2 : validateBarcode2 s f = false := by
      unfold validateBarcode2
      rw [find_format_none f hf]
    rw [validate_reduce, h2]
    exact ite_self false
  · rw [validate_reduce, if_pos hs]

/-- Witness for `validate_unknown_or_empty`: an unknown identifier is
rejected, and the empty string is rejected even for Code 128. -/
theorem validate_unknown_or_empty_witness :
    ("QRCODE" ∉ ["CODE128", "CODE39", "EAN13", "EAN8", "UPC"]
        ∧ validateBarcode "123" "QRCODE" = false)
      ∧ validateBarcode "" "CODE128" = false :=
  ⟨⟨by decide, validate_unknown_or_empty "123" "QRCODE" (Or.inl (by decide))⟩,
    validate_unknown_or_empty "" "CODE128" (Or.inr rfl)⟩

/-- C4: Code 39 admits exactly the non-empty strings over digits, uppercase
letters, space and the symbols hyphen, dot, dollar, slash, plus, percent. -/
theorem code39_charset (s : String) :
    validateBarcode s "CODE39" = true
      ↔ s ≠ "" ∧ ∀ c ∈ s.data,
          ('0' ≤ c ∧ c ≤ '9') ∨ ('A' ≤ c ∧ c ≤ 'Z') ∨ c = '-' ∨ c = '.'
            ∨ c = ' ' ∨ c = '$' ∨ c = '/' ∨ c = '+' ∨ c = '%' := by
  by_cases hs : s = ""
  · subst hs
    decide
  · rw [validate_reduce, if_neg hs]
    show code39Test s = true ↔ _
    have hd : ¬s.data.isEmpty := by
      simp only [List.isEmpty_iff]
      intro hnil
      exact hs (String.ext hnil)
    simp [code39Test, List.all_eq_true, code39Char_iff, hd, hs]

/-- Witness for `code39_charset`: the claim's examples. -/
theorem code39_charset_witness :
    validateBarcode "ABC-123" "CODE39" = true
      ∧ validateBarcode "abc" "CODE39" = false := by
  refine ⟨(code39_charset "ABC-123").mpr (by decide), ?_⟩
  rcases Bool.eq_false_or_eq_true (validateBarcode "abc" "CODE39") with ht | hf
  · exact absurd ((code39_charset "abc").mp ht) (by decide)
  · exact hf

/-- C5: Code 128 admits every non-empty string. -/
theorem code128_any_nonempty (s : String) (h : s ≠ "") :
    validateBarcode s "CODE128" = true := by
  rw [validate_reduce, if_neg h]
  rfl

/-- Witness for `code128_any_nonempty`: a string failing every other
symbology's predicate is admitted. -/
theorem code128_any_nonempty_witness :
    ("héllo!" : String) ≠ "" ∧ validateBarcode "héllo!" "CODE128" = true :=
  ⟨by decide, code128_any_nonempty "héllo!" (by decide)⟩

/-- C10 counterexample: the two embedded variants of `validateBarcode`
disagree at the input (empty string, CODE128) — the first rejects, the
second accepts. -/
theorem validate_variants_differ :
    validateBarcode "" "CODE128" = false
      ∧ validateBarcode2 "" "CODE128" = true
      ∧ validateBarcode "" "CODE128" ≠ validateBarcode2 "" "CODE128" := by
  decide

/-- C10 amended: the two variants agree on every input except the empty
string under CODE128. -/
theorem validate_variants_agree (t f : String) (h : t ≠ "" ∨ f ≠ "CODE128") :
    validateBarcode t f = validateBarcode2 t f := by
  by_cases ht : t = ""
  · subst ht
    have hf : f ≠ "CODE128" := by
      rcases h with h | h
      · exact absurd rfl h
      · exact h
    rw [validate_reduce, if_pos rfl]
    by_cases h2 : f = "CODE39"
    · subst h2; decide
    by_cases h3 : f = "EAN13"
    · subst h3; decide
    by_cases h4 : f = "EAN8"
    · subst h4; decide
    by_cases h5 : f = "UPC"
    · subst h5; decide
    have hnone := find_format_none f (by simp [hf, h2, h3, h4, h5])
    unfold validateBarcode2
    rw [hnone]
  · rw [validate_reduce, if_neg ht]

/-- Witness for `validate_variants_agree`: agreement at a concrete
non-empty input. -/
theorem validate_variants_agree_witness :
    (("abc" : String) ≠ "" ∨ ("CODE39" : String) ≠ "CODE128")
      ∧ validateBarcode "abc" "CODE39" = validateBarcode2 "abc" "CODE39" :=
  ⟨Or.inl (by decide), validate_variants_agree "abc" "CODE39" (Or.inl (by decide))⟩

/-! Helper lemmas about the batch loop. -/

lemma filterMap_attempt (bs : BarcodeSettings) (es : ExportSettings)
    (rok : BatchRow → Bool) (rows : List BatchRow) :
    List.filterMap (fun r => attemptOf (processRow bs es rok r)) rows
      = (rows.filter (fun r => validateBarcode r.barcode bs.format)).map
          BatchRow.barcode := by
  induction rows with
  | nil => rfl
  | cons r rows ih =>
    rw [List.filterMap_cons, List.filter_cons]
    generalize List.filterMap (fun r => attemptOf (processRow bs es rok r)) rows
      = tail at ih ⊢
    by_cases hv : validateBarcode r.barcode bs.format
    · by_cases hr : rok r
      · simp [processRow, hv, hr, attemptOf, ih]
      · simp [processRow, hv, hr, attemptOf, ih]
    · simp [processRow, hv, attemptOf, ih]

lemma attemptCodes_map_processRow (bs : BarcodeSettings) (es : ExportSettings)
    (rok : BatchRow → Bool) (rows : List BatchRow) :
    attemptCodes (rows.map (processRow bs es rok))
      = (rows.filter (fun r => validateBarcode r.barcode bs.format)).map
          BatchRow.barcode := by
  unfold attemptCodes
  rw [List.filterMap_map]
  exact filterMap_attempt bs es rok rows

lemma filterMap_warn (bs : BarcodeSettings) (es : ExportSettings)
    (rok : BatchRow → Bool) (rows : List BatchRow) :
    List.filterMap (fun r => warnOf (processRow bs es rok r)) rows
      = (rows.filter (fun r => !(validateBarcode r.barcode bs.format))).map
          BatchRow.barcode := by
  induction rows with
  | nil => rfl
  | cons r rows ih =>
    rw [List.filterMap_cons, List.filter_cons]
    generalize List.filterMap (fun r => warnOf (processRow bs es rok r)) rows
      = tail at ih ⊢
    by_cases hv : validateBarcode r.barcode bs.format
    · by_cases hr : rok r
      · simp [processRow, hv, hr, warnOf, ih]
      · simp [processRow, hv, hr, warnOf, ih]
    · simp [processRow, hv, warnOf, ih]

lemma warnCodes_map_processRow (bs : BarcodeSettings) (es : ExportSettings)
    (rok : BatchRow → Bool) (rows : List BatchRow) :
    warnCodes (rows.map (processRow bs es rok))
      = (rows.filter (fun r => !(validateBarcode r.barcode bs.format))).map
          BatchRow.barcode := by
  unfold warnCodes
  rw [List.filterMap_map]
  exact filterMap_warn bs es rok rows

lemma length_filter_add_not (p : BatchRow → Bool) (l : List BatchRow) :
    (l.filter p).length + (l.filter (fun a => !(p a))).length = l.length := by
  induction l with
  | nil => rfl
  | cons a l ih =>
    rw [List.filter_cons, List.filter_cons]
    by_cases h : p a
    · rw [if_pos h, if_neg (by simp [h])]
      simp only [List.length_cons]
      omega
    · rw [if_neg h, if_pos (by simp [h])]
      simp only [List.length_cons]
      omega

lemma batchFilename_eq (es : ExportSettings) (code : String) :
    batchFilename es code
      = es.prefixStr ++ code ++ es.suffixStr ++ "." ++ es.format.ext := by
  unfold batchFilename
  by_cases h : es.format = ExportFormat.svg
  · rw [if_pos h, h, String.append_assoc (es.prefixStr ++ code ++ es.suffixStr)]
    rfl
  · rw [if_neg h]

lemma singleFilename_eq (st : AppState) :
    singleFilename st
      = st.exportSettings.prefixStr ++ st.inputText
          ++ st.exportSettings.suffixStr ++ "." ++ st.exportSettings.format.ext := by
  unfold singleFilename
  by_cases h : st.exportSettings.format = ExportFormat.svg
  · rw [if_pos h, h, String.append_assoc
      (st.exportSettings.prefixStr ++ st.inputText ++ st.exportSettings.suffixStr)]
    rfl
  · rw [if_neg h]

/-- C1: a batch run over a non-empty row list makes one render-and-export
attempt per row that passes validation (so N minus M attempts when M of the
N rows fail validation), in the original row order; each invalid row is
skipped with a warning; every row is processed (no row aborts the batch);
and the run ends with `isGenerating` false. -/
theorem generateBatch_attempts (rok : BatchRow → Bool) (st : AppState)
    (h : st.batchData ≠ []) :
    attemptCodes (generateBatch rok st).2
        = (st.batchData.filter
            (fun r => validateBarcode r.barcode st.barcodeSettings.format)).map
              BatchRow.barcode
      ∧ (attemptCodes (generateBatch rok st).2).length
          = st.batchData.length
            - (st.batchData.filter
                (fun r => !(validateBarcode r.barcode st.barcodeSettings.format))).length
      ∧ warnCodes (generateBatch rok st).2
          = (st.batchData.filter
              (fun r => !(validateBarcode r.barcode st.barcodeSettings.format))).map
                BatchRow.barcode
      ∧ (generateBatch rok st).2.length = st.batchData.length
      ∧ (generateBatch rok st).1.isGenerating = false := by
  have hne : st.batchData.isEmpty = false := by
    simp [List.isEmpty_iff, h]
  have hgb : generateBatch rok st
      = ({ st with isGenerating := false },
          st.batchData.map (processRow st.barcodeSettings st.exportSettings rok)) := by
    simp [generateBatch, hne]
  rw [hgb]
  refine ⟨attemptCodes_map_processRow _ _ _ _, ?_,
    warnCodes_map_processRow _ _ _ _, List.length_map _ _, rfl⟩
  rw [attemptCodes_map_processRow, List.length_map]
  have hl := length_filter_add_not
    (fun r => validateBarcode r.barcode st.barcodeSettings.format) st.batchData
  omega

/-- Witness for `generateBatch_attempts`: a two-row EAN-13 batch with one
invalid row yields exactly one attempt, one warning, and returns idle. -/
theorem generateBatch_attempts_witness :
    stEanEx.batchData ≠ []
      ∧ (attemptCodes (generateBatch rokTrue stEanEx).2
            = (stEanEx.batchData.filter
                (fun r => validateBarcode r.barcode stEanEx.barcodeSettings.format)).map
                  BatchRow.barcode
          ∧ (attemptCodes (generateBatch rokTrue stEanEx).2).length
              = stEanEx.batchData.length
                - (stEanEx.batchData.filter
                    (fun r => !(validateBarcode r.barcode stEanEx.barcodeSettings.format))).length
          ∧ warnCodes (generateBatch rokTrue stEanEx).2
              = (stEanEx.batchData.filter
                  (fun r => !(validateBarcode r.barcode stEanEx.barcodeSettings.format))).map
                    BatchRow.barcode
          ∧ (generateBatch rokTrue stEanEx).2.length = stEanEx.batchData.length
          ∧ (generateBatch rokTrue stEanEx).1.isGenerating = false) :=
  ⟨by decide, generateBatch_attempts rokTrue stEanEx (by decide)⟩

/-- C7: the batch state machine is Idle, then Running, then Idle — clicking
generate while a run is in progress is rejected unchanged, a run started
from idle ends idle, and the only writes to the running flag during a run
are `true` at entry then `false` at exit. -/
theorem batch_no_overlap (rok : BatchRow → Bool) (st : AppState) :
    (st.isGenerating = true → clickGenerate rok st = (st, []))
      ∧ (st.isGenerating = false → (clickGenerate rok st).1.isGenerating = false)
      ∧ (st.batchData ≠ [] → isGeneratingWrites st = [true, false]) := by
  refine ⟨?_, ?_, ?_⟩
  · intro h
    simp [clickGenerate, h]
  · intro h
    by_cases hb : st.batchData.isEmpty <;>
      simp [clickGenerate, generateBatch, h, hb]
  · intro h
    simp [isGeneratingWrites, List.isEmpty_iff, h]

/-- Witness for `batch_no_overlap`: a click during a running batch is
rejected and an idle run ends idle, at concrete states. -/
theorem batch_no_overlap_witness :
    (stRunningEx.isGenerating = true
        ∧ clickGenerate rokTrue stRunningEx = (stRunningEx, []))
      ∧ (stEanEx.isGenerating = false
          ∧ (clickGenerate rokTrue stEanEx).1.isGenerating = false) :=
  ⟨⟨rfl, (batch_no_overlap rokTrue stRunningEx).1 rfl⟩,
    ⟨rfl, (batch_no_overlap rokTrue stEanEx).2.1 rfl⟩⟩

/-- C6: every exported artifact — each batch export and the single-mode
download — is saved under exactly prefix, then code, then suffix, then a
dot, then the output format. -/
theorem export_filename_formula :
    (∀ (rok : BatchRow → Bool) (st : AppState) (c fn : String),
        BatchEvent.exported c fn ∈ (generateBatch rok st).2 →
          fn = st.exportSettings.prefixStr ++ c ++ st.exportSettings.suffixStr
                ++ "." ++ st.exportSettings.format.ext)
      ∧ (∀ (st : AppState) (fn : String) (opts : RenderOptions),
          downloadSingle st = some (fn, opts) →
            fn = st.exportSettings.prefixStr ++ st.inputText
                  ++ st.exportSettings.suffixStr ++ "."
                  ++ st.exportSettings.format.ext) := by
  constructor
  · intro rok st c fn hmem
    by_cases hb : st.batchData.isEmpty
    · simp [generateBatch, hb] at hmem
    · simp only [generateBatch, hb, Bool.false_eq_true, if_false] at hmem
      rcases List.mem_map.mp hmem with ⟨r, _, he⟩
      unfold processRow at he
      split_ifs at he
      simp only [BatchEvent.exported.injEq] at he
      obtain ⟨rfl, rfl⟩ := he
      exact batchFilename_eq st.exportSettings r.barcode
  · intro st fn opts h
    unfold downloadSingle at h
    split_ifs at h
    simp only [Option.some.injEq, Prod.mk.injEq] at h
    obtain ⟨rfl, -⟩ := h
    exact singleFilename_eq st

/-- Witness for `export_filename_formula`: the claim's example — prefix
IT underscore, code ABCD1234, suffix underscore v1, SVG output — yields the
filename IT underscore ABCD1234 underscore v1 dot svg, in both modes. -/
theorem export_filename_formula_witness :
    (BatchEvent.exported "ABCD1234" "IT_ABCD1234_v1.svg"
        ∈ (generateBatch rokTrue stSvgEx).2
      ∧ "IT_ABCD1234_v1.svg"
          = stSvgEx.exportSettings.prefixStr ++ "ABCD1234"
              ++ stSvgEx.exportSettings.suffixStr ++ "."
              ++ stSvgEx.exportSettings.format.ext)
      ∧ (downloadSingle stSingleEx
            = some ("IT_ABCD1234_v1.svg", singleExportRenderOptions stSingleEx)
        ∧ "IT_ABCD1234_v1.svg"
            = stSingleEx.exportSettings.prefixStr ++ stSingleEx.inputText
                ++ stSingleEx.exportSettings.suffixStr ++ "."
                ++ stSingleEx.exportSettings.format.ext) :=
  ⟨⟨by decide,
      export_filename_formula.1 rokTrue stSvgEx "ABCD1234" "IT_ABCD1234_v1.svg"
        (by decide)⟩,
    ⟨rfl,
      export_filename_formula.2 stSingleEx "IT_ABCD1234_v1.svg"
        (singleExportRenderOptions stSingleEx) rfl⟩⟩

/-- C8: for raster output (PNG or JPG) the renderer receives the configured
width, height and font size each multiplied by resolution over 500, both in
the batch loop and in the single download; for SVG output the renderer
invocation that produces the exported artifact receives the unscaled
configured values. -/
theorem render_scaling :
    (∀ (bs : BarcodeSettings) (es : ExportSettings) (item : BatchRow),
        es.format = ExportFormat.png ∨ es.format = ExportFormat.jpg →
          (batchRenderOptions bs es item).width = bs.width * (es.resolution / 500)
            ∧ (batchRenderOptions bs es item).height
                = bs.height * (es.resolution / 500)
            ∧ (batchRenderOptions bs es item).fontSize
                = bs.fontSize * (es.resolution / 500))
      ∧ (∀ (bs : BarcodeSettings) (es : ExportSettings) (item : BatchRow),
          es.format = ExportFormat.svg →
            (batchRenderOptions bs es item).width = bs.width
              ∧ (batchRenderOptions bs es item).height = bs.height
              ∧ (batchRenderOptions bs es item).fontSize = bs.fontSize)
      ∧ (∀ st : AppState,
          st.exportSettings.format = ExportFormat.png
              ∨ st.exportSettings.format = ExportFormat.jpg →
            (singleExportRenderOptions st).width
                = st.barcodeSettings.width * (st.exportSettings.resolution / 500)
              ∧ (singleExportRenderOptions st).height
                  = st.barcodeSettings.height * (st.exportSettings.resolution / 500)
              ∧ (singleExportRenderOptions st).fontSize
                  = st.barcodeSettings.fontSize * (st.exportSettings.resolution / 500))
      ∧ (∀ st : AppState,
          st.exportSettings.format = ExportFormat.svg →
            (singleExportRenderOptions st).width = st.barcodeSettings.width
              ∧ (singleExportRenderOptions st).height = st.barcodeSettings.height
              ∧ (singleExportRenderOptions st).fontSize
                  = st.barcodeSettings.fontSize) := by
  refine ⟨?_, ?_, ?_, ?_⟩
  · intro bs es item h
    have hne : es.format ≠ ExportFormat.svg := by
      rcases h with h | h <;> rw [h] <;> decide
    simp [batchRenderOptions, hne]
  · intro bs es item h
    simp [batchRenderOptions, h]
  · intro st h
    have hne : st.exportSettings.format ≠ ExportFormat.svg := by
      rcases h with h | h <;> rw [h] <;> decide
    simp [singleExportRenderOptions, downloadCanvasRenderOptions, hne]
  · intro st h
    simp [singleExportRenderOptions, previewRenderOptions, h]

/-- Witness for `render_scaling`: a PNG batch render at resolution 800 is
scaled, an SVG single export is not. -/
theorem render_scaling_witness :
    ((esPngEx.format = ExportFormat.png ∨ esPngEx.format = ExportFormat.jpg)
      ∧ ((batchRenderOptions bsInit esPngEx ⟨"A", "A"⟩).width
            = bsInit.width * (esPngEx.resolution / 500)
          ∧ (batchRenderOptions bsInit esPngEx ⟨"A", "A"⟩).height
              = bsInit.height * (esPngEx.resolution / 500)
          ∧ (batchRenderOptions bsInit esPngEx ⟨"A", "A"⟩).fontSize
              = bsInit.fontSize * (esPngEx.resolution / 500)))
      ∧ (stSingleEx.exportSettings.format = ExportFormat.svg
          ∧ ((singleExportRenderOptions stSingleEx).width
                = stSingleEx.barcodeSettings.width
            ∧ (singleExportRenderOptions stSingleEx).height
                = stSingleEx.barcodeSettings.height
            ∧ (singleExportRenderOptions stSingleEx).fontSize
                = stSingleEx.barcodeSettings.fontSize)) :=
  ⟨⟨Or.inl rfl, render_scaling.1 bsInit esPngEx ⟨"A", "A"⟩ (Or.inl rfl)⟩,
    ⟨rfl, render_scaling.2.2.2 stSingleEx rfl⟩⟩

/-! Helper lemmas about the CSV row mapping. -/

lemma jsOrChain_cons_truthy (s : String) (xs : List (Option String))
    (last : Option String) (h : s ≠ "") :
    jsOrChain (some s :: xs) last = s := by
  simp [jsOrChain, h]

lemma jsOrChain_cons_falsy (x : Option String) (xs : List (Option String))
    (last : Option String) (h : jsTruthy x = false) :
    jsOrChain (x :: xs) last = jsOrChain xs last := by
  rcases x with _ | s
  · rfl
  · have hs : s = "" := by
      simpa [jsTruthy] using h
    simp [jsOrChain, hs]

/-- C9 counterexample: the code column selection is not case-insensitive —
on a record whose barcode column is headed `BARCODE` and is not the first
column, the case-insensitive lookup the claim describes finds the value
123, but the code actually falls back to the first column's value X. -/
theorem csv_code_not_case_insensitive :
    lookupCI rowUpperEx "barcode" = some "123"
      ∧ csvRowBarcode rowUpperEx = "X"
      ∧ ("X" : String) ≠ "123" := by
  decide

/-- C9 amended: the code of a parsed row comes from a field named exactly
`barcode` or `Barcode` (in that order, treating an empty value as absent),
else from the first column; the label likewise from a field named exactly
`text` or `Text` (in that order, treating an empty value as absent), else
falling back to the code; blank rows are skipped; the claim's concrete
example parses as stated, in order. -/
theorem csv_row_selection :
    (∀ (row : CsvRecord) (v : String),
        getField row "barcode" = some v → v ≠ "" → csvRowBarcode row = v)
      ∧ (∀ (row : CsvRecord) (v : String),
          jsTruthy (getField row "barcode") = false →
            getField row "Barcode" = some v → v ≠ "" → csvRowBarcode row = v)
      ∧ (∀ row : CsvRecord,
          jsTruthy (getField row "barcode") = false →
            jsTruthy (getField row "Barcode") = false →
              csvRowBarcode row = (firstColumn row).getD "")
      ∧ (∀ (row : CsvRecord) (v : String),
          getField row "text" = some v → v ≠ "" → csvRowText row = v)
      ∧ (∀ (row : CsvRecord) (v : String),
          jsTruthy (getField row "text") = false →
            getField row "Text" = some v → v ≠ "" → csvRowText row = v)
      ∧ (∀ row : CsvRecord,
          jsTruthy (getField row "text") = false →
            jsTruthy (getField row "Text") = false →
              csvRowText row = csvRowBarcode row)
      ∧ handleCsvUpload "barcode,text\n123456789012,Prodotto A\nABCD1234,Codice Speciale"
          = [⟨"123456789012", "Prodotto A"⟩, ⟨"ABCD1234", "Codice Speciale"⟩]
      ∧ handleCsvUpload "barcode,text\n123456789012,Prodotto A\n\nABCD1234,Codice Speciale"
          = [⟨"123456789012", "Prodotto A"⟩, ⟨"ABCD1234", "Codice Speciale"⟩] := by
  refine ⟨?_, ?_, ?_, ?_, ?_, ?_, by decide, by decide⟩
  · intro row v hv hne
    unfold csvRowBarcode
    rw [hv]
    exact jsOrChain_cons_truthy v _ _ hne
  · intro row v hf hv hne
    unfold csvRowBarcode
    rw [jsOrChain_cons_falsy _ _ _ hf, hv]
    exact jsOrChain_cons_truthy v _ _ hne
  · intro row hf1 hf2
    unfold csvRowBarcode
    rw [jsOrChain_cons_falsy _ _ _ hf1, jsOrChain_cons_falsy _ _ _ hf2]
    rfl
  · intro row v hv hne
    unfold csvRowText
    rw [hv]
    exact jsOrChain_cons_truthy v _ _ hne
  · intro row v hf hv hne
    unfold csvRowText
    rw [jsOrChain_cons_falsy _ _ _ hf, hv]
    exact jsOrChain_cons_truthy v _ _ hne
  · intro row hf1 hf2
    unfold csvRowText csvRowBarcode
    rw [jsOrChain_cons_falsy _ _ _ hf1, jsOrChain_cons_falsy _ _ _ hf2]

/-- Witness for `csv_row_selection`: on a record parsed from the header
`barcode,text`, the code is the barcode field's value and the label is the
text field's value. -/
theorem csv_row_selection_witness :
    (getField rowPlainEx "barcode" = some "123456789012"
        ∧ ("123456789012" : String) ≠ ""
        ∧ csvRowBarcode rowPlainEx = "123456789012")
      ∧ (getField rowPlainEx "text" = some "Prodotto A"
          ∧ ("Prodotto A" : String) ≠ ""
          ∧ csvRowText rowPlainEx = "Prodotto A") :=
  ⟨⟨by decide, by decide,
      csv_row_selection.1 rowPlainEx "123456789012" (by decide) (by decide)⟩,
    ⟨by decide, by decide,
      csv_row_selection.2.2.2.1 rowPlainEx "Prodotto A" (by decide) (by decide)⟩⟩

end BarcodeGen
